import Mathlib

/-!
Verification development for OctoPrint's plugin subsystem
(`src/octoprint/plugin/__init__.py`) and the printer schema
(`src/octoprint/schema/printer/__init__.py`).

The embedding strategy:

* Python values that flow through the settings facade are modelled by the
  inductive type `SVal` (ints, floats as rationals, booleans, strings,
  dicts as ordered association lists, lists, and `None`).
* The external Settings Store (`octoprint.settings.Settings`, not part of
  the sources under verification) is modelled from the spec, see
  `Settings` below.  The facade `PluginSettings` is translated directly
  from the source; each of its accessor methods is embedded as a function
  producing the `StoreCall` it issues against the store, which keeps the
  delegation structure (path rewriting, keyword-argument injection)
  observable.
* The singleton factory `plugin_manager` is embedded as a state
  transformer on the module-level `_instance` cell.
* The dispatcher `call_plugin` is embedded as a trace-producing function
  over the list of implementations returned by the (external)
  `PluginManager.get_implementations`.
-/

set_option autoImplicit false

namespace OctoPrint

/-- Model of the Python values handled by the settings subsystem: `None`,
ints, floats (modelled as rationals; only their ordering matters here),
booleans, strings, dicts (ordered association lists, mirroring Python's
insertion-ordered dicts) and lists.  Opaque callables (preprocessors) are
carried as ordinary values and never applied inside the modelled code. -/
inductive SVal where
  | null : SVal
  | int : Int → SVal
  | float : Rat → SVal
  | bool : Bool → SVal
  | str : String → SVal
  | dict : List (String × SVal) → SVal
  | list : List SVal → SVal

/-- Python dict lookup `d[k]` (as an `Option`): first entry with the key. -/
def dictGet (k : String) : List (String × SVal) → Option SVal
  | [] => none
  | (k2, v) :: rest => if k2 = k then some v else dictGet k rest

/-- Python dict assignment `d[k] = v`: overwrite in place if the key is
present (keeping its position), otherwise append at the end. -/
def dictSet (k : String) (v : SVal) : List (String × SVal) → List (String × SVal)
  | [] => [(k, v)]
  | (k2, v2) :: rest =>
      if k2 = k then (k2, v) :: rest else (k2, v2) :: dictSet k v rest

/-- Python `list(x)`: for a dict, the list of its keys; for a list, its
elements.  Other values are not iterated by the code under study and give
`none` (a `TypeError` in Python). -/
def pyIter : SVal → Option (List SVal)
  | SVal.dict entries => some (entries.map (fun e => SVal.str e.1))
  | SVal.list elems => some elems
  | _ => none

/-- Keyword arguments of a Settings Store call.  A field holding `none`
models the keyword being absent from the Python `**kwargs` dict.  `min`
and `max` are the optional clamping bounds of the numeric accessors. -/
structure Kwargs where
  defaults : Option SVal := none
  preprocessors : Option SVal := none
  merged : Option Bool := none
  asdict : Option Bool := none
  force : Option Bool := none
  min : Option SVal := none
  max : Option SVal := none

/-- One call made against the external Settings Store, recording the
method, the path actually passed, the value (for setters) and the keyword
arguments actually passed.  This is the observable boundary between the
`PluginSettings` facade (in the sources) and the store (external). -/
inductive StoreCall where
  | has : List String → Kwargs → StoreCall
  | get : List String → Kwargs → StoreCall
  | getInt : List String → Kwargs → StoreCall
  | getFloat : List String → Kwargs → StoreCall
  | getBoolean : List String → Kwargs → StoreCall
  | set : List String → SVal → Kwargs → StoreCall
  | setInt : List String → SVal → Kwargs → StoreCall
  | setFloat : List String → SVal → Kwargs → StoreCall
  | setBoolean : List String → SVal → Kwargs → StoreCall
  | remove : List String → Kwargs → StoreCall
  | add_overlay : SVal → Kwargs → StoreCall
  | remove_overlay : String → StoreCall

/-- The path argument a store call carries (overlay calls carry none). -/
def StoreCall.path : StoreCall → List String
  | StoreCall.has p _ => p
  | StoreCall.get p _ => p
  | StoreCall.getInt p _ => p
  | StoreCall.getFloat p _ => p
  | StoreCall.getBoolean p _ => p
  | StoreCall.set p _ _ => p
  | StoreCall.setInt p _ _ => p
  | StoreCall.setFloat p _ _ => p
  | StoreCall.setBoolean p _ _ => p
  | StoreCall.remove p _ => p
  | StoreCall.add_overlay _ _ => []
  | StoreCall.remove_overlay _ => []

/-- The keyword arguments a store call carries. -/
def StoreCall.kwargs : StoreCall → Kwargs
  | StoreCall.has _ kw => kw
  | StoreCall.get _ kw => kw
  | StoreCall.getInt _ kw => kw
  | StoreCall.getFloat _ kw => kw
  | StoreCall.getBoolean _ kw => kw
  | StoreCall.set _ _ kw => kw
  | StoreCall.setInt _ _ kw => kw
  | StoreCall.setFloat _ _ kw => kw
  | StoreCall.setBoolean _ _ kw => kw
  | StoreCall.remove _ kw => kw
  | StoreCall.add_overlay _ kw => kw
  | StoreCall.remove_overlay _ => {}

/-- State of a `PluginSettings` facade, as set up by
`PluginSettings.__init__` (source lines 308-342).  `defaults`,
`get_preprocessors` and `set_preprocessors` hold the already-wrapped
(`{"plugins": {plugin_key: ...}}`) structures the constructor builds. -/
structure PluginSettings where
  plugin_key : String
  defaults : Option SVal
  get_preprocessors : SVal
  set_preprocessors : SVal

/-- Embedding of `PluginSettings.__init__`: wraps the optional `defaults`
dict under `{"plugins": {plugin_key: ...}}`, additionally assigning
`"_config_version" = None` inside it, and wraps the optional preprocessor
dicts (defaulting to `{}`) under the same namespace. -/
def PluginSettings.init (plugin_key : String) (defaults : Option (List (String × SVal)))
    (get_preprocessors set_preprocessors : Option SVal) : PluginSettings :=
  { plugin_key := plugin_key
    defaults := defaults.map (fun d =>
      SVal.dict [("plugins", SVal.dict
        [(plugin_key, SVal.dict (dictSet "_config_version" SVal.null d))])])
    get_preprocessors := SVal.dict [("plugins", SVal.dict
      [(plugin_key, get_preprocessors.getD (SVal.dict []))])]
    set_preprocessors := SVal.dict [("plugins", SVal.dict
      [(plugin_key, set_preprocessors.getD (SVal.dict []))])] }

/-- Embedding of `PluginSettings._prefix_path` (source lines 344-347):
prepend `["plugins", plugin_key]` to the caller-supplied path. -/
def PluginSettings.prefix_path (self : PluginSettings) (path : List String) : List String :=
  ["plugins", self.plugin_key] ++ path

/-- Embedding of `PluginSettings._add_getter_kwargs` (source lines
349-354): inject the wrapped defaults when the caller passed none and the
facade has some, and the wrapped get-preprocessors when the caller passed
none. -/
def PluginSettings.add_getter_kwargs (self : PluginSettings) (kwargs : Kwargs) : Kwargs :=
  let kwargs :=
    if kwargs.defaults.isNone && self.defaults.isSome then
      { kwargs with defaults := self.defaults }
    else kwargs
  if kwargs.preprocessors.isNone then
    { kwargs with preprocessors := some self.get_preprocessors }
  else kwargs

/-- Embedding of `PluginSettings._add_setter_kwargs` (source lines
356-361): same as the getter variant but injecting the wrapped
set-preprocessors. -/
def PluginSettings.add_setter_kwargs (self : PluginSettings) (kwargs : Kwargs) : Kwargs :=
  let kwargs :=
    if kwargs.defaults.isNone && self.defaults.isSome then
      { kwargs with defaults := self.defaults }
    else kwargs
  if kwargs.preprocessors.isNone then
    { kwargs with preprocessors := some self.set_preprocessors }
  else kwargs

/-- Embedding of `PluginSettings._wrap_overlay` (source lines 363-367).
The Python body is `result = list(args); overlay = result[0];
result[0] = {"plugins": {self.plugin_key: overlay}}; return result` —
note that it iterates its argument (for a dict: its keys) and wraps only
element 0.  `none` models the `TypeError`/`IndexError` raised when the
argument is not iterable or iterates to an empty list. -/
def PluginSettings.wrap_overlay (self : PluginSettings) (args : SVal) : Option SVal :=
  match pyIter args with
  | some (overlay0 :: rest) =>
      some (SVal.list
        (SVal.dict [("plugins", SVal.dict [(self.plugin_key, overlay0)])] :: rest))
  | some [] => none
  | none => none

/-- Embedding of `PluginSettings.has` (source lines 369-381). -/
def PluginSettings.has (self : PluginSettings) (path : List String) (kwargs : Kwargs) : StoreCall :=
  StoreCall.has (self.prefix_path path) (self.add_getter_kwargs kwargs)

/-- Embedding of `PluginSettings.get` (source lines 383-399). -/
def PluginSettings.get (self : PluginSettings) (path : List String) (kwargs : Kwargs) : StoreCall :=
  StoreCall.get (self.prefix_path path) (self.add_getter_kwargs kwargs)

/-- Embedding of `PluginSettings.get_int` (source lines 401-417). -/
def PluginSettings.get_int (self : PluginSettings) (path : List String) (kwargs : Kwargs) : StoreCall :=
  StoreCall.getInt (self.prefix_path path) (self.add_getter_kwargs kwargs)

/-- Embedding of `PluginSettings.get_float` (source lines 419-435). -/
def PluginSettings.get_float (self : PluginSettings) (path : List String) (kwargs : Kwargs) : StoreCall :=
  StoreCall.getFloat (self.prefix_path path) (self.add_getter_kwargs kwargs)

/-- Embedding of `PluginSettings.get_boolean` (source lines 437-449). -/
def PluginSettings.get_boolean (self : PluginSettings) (path : List String) (kwargs : Kwargs) : StoreCall :=
  StoreCall.getBoolean (self.prefix_path path) (self.add_getter_kwargs kwargs)

/-- Embedding of `PluginSettings.set` (source lines 451-463). -/
def PluginSettings.set (self : PluginSettings) (path : List String) (value : SVal)
    (kwargs : Kwargs) : StoreCall :=
  StoreCall.set (self.prefix_path path) value (self.add_setter_kwargs kwargs)

/-- Embedding of `PluginSettings.set_int` (source lines 465-481). -/
def PluginSettings.set_int (self : PluginSettings) (path : List String) (value : SVal)
    (kwargs : Kwargs) : StoreCall :=
  StoreCall.setInt (self.prefix_path path) value (self.add_setter_kwargs kwargs)

/-- Embedding of `PluginSettings.set_float` (source lines 483-499). -/
def PluginSettings.set_float (self : PluginSettings) (path : List String) (value : SVal)
    (kwargs : Kwargs) : StoreCall :=
  StoreCall.setFloat (self.prefix_path path) value (self.add_setter_kwargs kwargs)

/-- Embedding of `PluginSettings.set_boolean` (source lines 501-511). -/
def PluginSettings.set_boolean (self : PluginSettings) (path : List String) (value : SVal)
    (kwargs : Kwargs) : StoreCall :=
  StoreCall.setBoolean (self.prefix_path path) value (self.add_setter_kwargs kwargs)

/-- Embedding of `PluginSettings.remove` (source lines 513-520).  Note
the source passes the kwargs through unmodified (no defaults or
preprocessor injection). -/
def PluginSettings.remove (self : PluginSettings) (path : List String) (kwargs : Kwargs) : StoreCall :=
  StoreCall.remove (self.prefix_path path) kwargs

/-- Embedding of `PluginSettings.add_overlay` (source lines 522-532):
`self.settings.add_overlay(self._wrap_overlay(overlay), **kwargs)`;
`none` models the exception escaping from `_wrap_overlay`. -/
def PluginSettings.add_overlay (self : PluginSettings) (overlay : SVal)
    (kwargs : Kwargs) : Option StoreCall :=
  (self.wrap_overlay overlay).map (fun wrapped => StoreCall.add_overlay wrapped kwargs)

/-- Embedding of `PluginSettings.remove_overlay` (source lines 534-541). -/
def PluginSettings.remove_overlay (_self : PluginSettings) (key : String) : StoreCall :=
  StoreCall.remove_overlay key

/-- Embedding of `PluginSettings.global_has` (source lines 543-549). -/
def PluginSettings.global_has (_self : PluginSettings) (path : List String) (kwargs : Kwargs) : StoreCall :=
  StoreCall.has path kwargs

/-- Embedding of `PluginSettings.global_remove` (source lines 551-557). -/
def PluginSettings.global_remove (_self : PluginSettings) (path : List String) (kwargs : Kwargs) : StoreCall :=
  StoreCall.remove path kwargs

/-- Embedding of `PluginSettings.global_get` (source lines 559-566). -/
def PluginSettings.global_get (_self : PluginSettings) (path : List String) (kwargs : Kwargs) : StoreCall :=
  StoreCall.get path kwargs

/-- Embedding of `PluginSettings.global_get_int` (source lines 568-575). -/
def PluginSettings.global_get_int (_self : PluginSettings) (path : List String) (kwargs : Kwargs) : StoreCall :=
  StoreCall.getInt path kwargs

/-- Embedding of `PluginSettings.global_get_float` (source lines 577-584). -/
def PluginSettings.global_get_float (_self : PluginSettings) (path : List String) (kwargs : Kwargs) : StoreCall :=
  StoreCall.getFloat path kwargs

/-- Embedding of `PluginSettings.global_get_boolean` (source lines 586-593). -/
def PluginSettings.global_get_boolean (_self : PluginSettings) (path : List String) (kwargs : Kwargs) : StoreCall :=
  StoreCall.getBoolean path kwargs

/-- Embedding of `PluginSettings.global_set` (source lines 595-602). -/
def PluginSettings.global_set (_self : PluginSettings) (path : List String) (value : SVal)
    (kwargs : Kwargs) : StoreCall :=
  StoreCall.set path value kwargs

/-- Embedding of `PluginSettings.global_set_int` (source lines 604-611). -/
def PluginSettings.global_set_int (_self : PluginSettings) (path : List String) (value : SVal)
    (kwargs : Kwargs) : StoreCall :=
  StoreCall.setInt path value kwargs

/-- Embedding of `PluginSettings.global_set_float` (source lines 613-620). -/
def PluginSettings.global_set_float (_self : PluginSettings) (path : List String) (value : SVal)
    (kwargs : Kwargs) : StoreCall :=
  StoreCall.setFloat path value kwargs

/-- Embedding of `PluginSettings.global_set_boolean` (source lines 622-629). -/
def PluginSettings.global_set_boolean (_self : PluginSettings) (path : List String) (value : SVal)
    (kwargs : Kwargs) : StoreCall :=
  StoreCall.setBoolean path value kwargs

/-- Python `int(x)` on the values the settings code converts: ints,
floats (truncation toward zero) and booleans; other values model a
conversion failure. -/
def pyToInt : SVal → Option Int
  | SVal.int i => some i
  | SVal.float q => some (q.num.tdiv (q.den : Int))
  | SVal.bool b => some (if b then 1 else 0)
  | _ => none

/-- Python `float(x)` on ints, floats and booleans. -/
def pyToRat : SVal → Option Rat
  | SVal.int i => some (i : Rat)
  | SVal.float q => some q
  | SVal.bool b => some (if b then 1 else 0)
  | _ => none

/-- Truthiness-style boolean conversion used by the store's boolean
accessors. -/
def pyToBool : SVal → Option Bool
  | SVal.bool b => some b
  | SVal.int i => some (decide (i ≠ 0))
  | SVal.float q => some (decide (q ≠ 0))
  | SVal.str s => some (decide (s ∈ ["true", "yes", "y", "1"]))
  | _ => none

/-- Clamp an integer between the optional bounds carried in kwargs, as
the spec describes for the numeric setters: a value below `min` becomes
`min`, a value above `max` becomes `max`. -/
def clampInt (minv maxv : Option Int) (i : Int) : Int :=
  let lo := match minv with
    | some m => if i < m then m else i
    | none => i
  match maxv with
  | some m => if lo > m then m else lo
  | none => lo

/-- Clamp a rational between optional bounds, the float analogue of
`clampInt`. -/
def clampRat (minv maxv : Option Rat) (q : Rat) : Rat :=
  let lo := match minv with
    | some m => if q < m then m else q
    | none => q
  match maxv with
  | some m => if lo > m then m else lo
  | none => lo

/-- Follow a path through nested `SVal.dict` layers (used to consult a
defaults tree on reads of unset paths). -/
def digPath : List String → SVal → Option SVal
  | [], v => some v
  | k :: rest, SVal.dict entries =>
      match dictGet k entries with
      | some v => digPath rest v
      | none => none
  | _ :: _, _ => none

/-- Modelled from the spec: the external Settings Store
(`octoprint.settings.Settings`, not among the sources under
verification).  The spec describes it as a hierarchical key/value tree
keyed by ordered path segments with typed get/set, default-merging,
overlays and persistence (spec sections 3 and 6).  Here the explicitly
stored values are a mapping from full paths to values, plus the
registered overlays keyed by the opaque keys `add_overlay` returns.
Preprocessor payloads are carried opaquely in the kwargs and not applied;
the merge semantics of `merged` reads beyond defaults-on-absent-value is
not needed by any claim and not modelled. -/
structure Settings where
  data : List (List String × SVal) := []
  overlays : List (String × SVal) := []
  overlay_counter : Nat := 0

/-- Raw lookup of an explicitly stored value: first binding of the exact
path wins (a set conses the new binding in front). -/
def storeLookup (path : List String) : List (List String × SVal) → Option SVal
  | [] => none
  | (p, v) :: rest => if p = path then some v else storeLookup path rest

/-- The explicitly stored value of the store at a path, if any (a read
that bypasses defaults and overlays). -/
def Settings.stored (st : Settings) (path : List String) : Option SVal :=
  storeLookup path st.data

/-- Store a value at a path, shadowing any previous binding. -/
def Settings.write (st : Settings) (path : List String) (v : SVal) : Settings :=
  { st with data := (path, v) :: st.data }

/-- Read with the defaults fallback of the spec: the explicitly stored
value if present, else the value found in the `defaults` tree supplied in
the kwargs, else `None`. -/
def Settings.read (st : Settings) (path : List String) (kw : Kwargs) : SVal :=
  match st.stored path with
  | some v => v
  | none =>
      match kw.defaults.bind (digPath path) with
      | some v => v
      | none => SVal.null

/-- Modelled from the spec: the store's reaction to one call, returning
the updated store and the call's result.  Typed getters convert and, per
the source docstrings of `get_int`/`get_float`, clamp between the
optional bounds; conversion failure yields an absent value (`None`).
Typed setters convert, clamp (for the numeric ones) and store; a setter
whose conversion fails leaves the store unchanged.  `add_overlay`
registers the overlay under a fresh opaque key it returns,
`remove_overlay` deregisters that key. -/
def Settings.apply (st : Settings) : StoreCall → Settings × SVal
  | StoreCall.has path kw =>
      (st, SVal.bool ((st.stored path).isSome ||
        (kw.defaults.bind (digPath path)).isSome))
  | StoreCall.get path kw => (st, st.read path kw)
  | StoreCall.getInt path kw =>
      (st, match pyToInt (st.read path kw) with
        | some i => SVal.int (clampInt (kw.min.bind pyToInt) (kw.max.bind pyToInt) i)
        | none => SVal.null)
  | StoreCall.getFloat path kw =>
      (st, match pyToRat (st.read path kw) with
        | some q => SVal.float (clampRat (kw.min.bind pyToRat) (kw.max.bind pyToRat) q)
        | none => SVal.null)
  | StoreCall.getBoolean path kw =>
      (st, match pyToBool (st.read path kw) with
        | some b => SVal.bool b
        | none => SVal.null)
  | StoreCall.set path v _kw => (st.write path v, SVal.null)
  | StoreCall.setInt path v kw =>
      (match pyToInt v with
        | some i =>
            st.write path (SVal.int (clampInt (kw.min.bind pyToInt) (kw.max.bind pyToInt) i))
        | none => st,
       SVal.null)
  | StoreCall.setFloat path v kw =>
      (match pyToRat v with
        | some q =>
            st.write path (SVal.float (clampRat (kw.min.bind pyToRat) (kw.max.bind pyToRat) q))
        | none => st,
       SVal.null)
  | StoreCall.setBoolean path v _kw =>
      (match pyToBool v with
        | some b => st.write path (SVal.bool b)
        | none => st,
       SVal.null)
  | StoreCall.remove path _kw =>
      ({ st with data := st.data.filter (fun e => decide (e.1 ≠ path)) }, SVal.null)
  | StoreCall.add_overlay ov _kw =>
      let key := "overlay_" ++ toString st.overlay_counter
      ({ st with overlays := (key, ov) :: st.overlays,
                 overlay_counter := st.overlay_counter + 1 },
       SVal.str key)
  | StoreCall.remove_overlay key =>
      ({ st with overlays := st.overlays.filter (fun e => decide (e.1 ≠ key)) }, SVal.null)

/-- Arguments of the `plugin_manager` factory (source lines 27-40), all
keyword arguments defaulting to `None`.  Plugin base classes, entry
points, validators and hooks are identified by name; the sorting-order
and blacklist payloads are opaque to the factory and carried as `SVal`. -/
structure PMArgs where
  plugin_folders : Option (List String) := none
  plugin_bases : Option (List String) := none
  plugin_entry_points : Option (List String) := none
  plugin_disabled_list : Option (List String) := none
  plugin_sorting_order : Option SVal := none
  plugin_blacklist : Option SVal := none
  plugin_restart_needing_hooks : Option (List String) := none
  plugin_obsolete_hooks : Option (List String) := none
  plugin_considered_bundled : Option (List String) := none
  plugin_validators : Option (List String) := none
  compatibility_ignored_list : Option (List String) := none

/-- The record of constructor arguments the factory hands to the external
`octoprint.plugin.core.PluginManager` (source lines 122-135), after the
factory's defaulting logic.  The `PluginManager` class itself lives in
`octoprint/plugin/core.py`, outside the sources under verification, so
the constructed singleton is represented by this argument record. -/
structure PluginManagerInst where
  plugin_folders : Option (List String)
  plugin_bases : List String
  plugin_entry_points : Option (List String)
  logging_prefix : String
  plugin_disabled_list : Option (List String)
  plugin_sorting_order : Option SVal
  plugin_blacklist : Option SVal
  plugin_restart_needing_hooks : List String
  plugin_obsolete_hooks : List String
  plugin_considered_bundled : List String
  plugin_validators : List String
  compatibility_ignored_list : Option (List String)

/-- The defaulting and construction performed on the `init=True` path of
`plugin_manager` (source lines 93-135): fill in the documented defaults
for bases, restart-needing hooks, obsolete hooks and bundled plugins, and
append the module's `_validate_plugin` to the validators. -/
def mkPluginManager (a : PMArgs) : PluginManagerInst :=
  { plugin_folders := a.plugin_folders
    plugin_bases := a.plugin_bases.getD ["OctoPrintPlugin"]
    plugin_entry_points := a.plugin_entry_points
    logging_prefix := "octoprint.plugins."
    plugin_disabled_list := a.plugin_disabled_list
    plugin_sorting_order := a.plugin_sorting_order
    plugin_blacklist := a.plugin_blacklist
    plugin_restart_needing_hooks := a.plugin_restart_needing_hooks.getD
      ["octoprint.server.http.*", "octoprint.printer.factory",
       "octoprint.access.permissions", "octoprint.timelapse.extensions"]
    plugin_obsolete_hooks := a.plugin_obsolete_hooks.getD
      ["octoprint.comm.protocol.gcode"]
    plugin_considered_bundled := a.plugin_considered_bundled.getD
      ["firmware_check", "file_check", "pi_support"]
    plugin_validators :=
      (match a.plugin_validators with
        | none => ["_validate_plugin"]
        | some vs => vs ++ ["_validate_plugin"])
    compatibility_ignored_list := a.compatibility_ignored_list }

/-- Embedding of the singleton factory `plugin_manager` (source lines
87-138) as a transformer of the module-level `_instance` cell: given the
`init` flag, the arguments and the current cell contents, it either
raises a `ValueError` (modelled as `Except.error` carrying the message)
or returns the instance handed back to the caller together with the new
cell contents. -/
def plugin_manager (init : Bool) (args : PMArgs) (instance_ : Option PluginManagerInst) :
    Except String (PluginManagerInst × Option PluginManagerInst) :=
  match instance_ with
  | some inst =>
      if init then Except.error "Plugin Manager already initialized"
      else Except.ok (inst, some inst)
  | none =>
      if init then
        let inst := mkPluginManager args
        Except.ok (inst, some inst)
      else Except.error "Plugin Manager not initialized yet"

/-- One plugin implementation as seen by `call_plugin`'s loop: whether it
carries the `_identifier` attribute (and its value), whether it exposes
the requested method (`hasattr(plugin, method)`), and the behaviour of
calling that method with the dispatched arguments — either a result or a
raised exception (carried as a message string). -/
structure PluginInst where
  identifier : Option String
  hasMethod : Bool
  run : Except String SVal

/-- Observable events of one `call_plugin` dispatch, in order: the method
being invoked on a plugin, the success `callback` returning normally for
a plugin, and `error_callback` being invoked for a plugin with an
exception. -/
inductive CallEvent where
  | invoked : String → CallEvent
  | callback_ok : String → CallEvent
  | error_cb : String → String → CallEvent
deriving DecidableEq, Repr

/-- The events contributed by one plugin in `call_plugin`'s loop (source
lines 269-285): skip silently when `_identifier` or the method is
missing; otherwise invoke the method, and — inside one `try` block —
invoke `callback` on success; any exception escaping the method or the
callback is caught, logged, and routed to `error_callback` when one is
provided.  The success callback receives the identifier, the instance
and the result and may itself raise; `error_callback` is modelled as
total since no claim concerns it raising. -/
def plugin_events (callback : Option (String → PluginInst → SVal → Except String Unit))
    (has_error_callback : Bool) (plugin : PluginInst) : List CallEvent :=
  match plugin.identifier with
  | none => []
  | some name =>
      if plugin.hasMethod then
        CallEvent.invoked name ::
          match plugin.run with
          | Except.ok result =>
              match callback with
              | none => []
              | some cb =>
                  match cb name plugin result with
                  | Except.ok _ => [CallEvent.callback_ok name]
                  | Except.error exc =>
                      if has_error_callback then [CallEvent.error_cb name exc] else []
          | Except.error exc =>
              if has_error_callback then [CallEvent.error_cb name exc] else []
      else []

/-- Embedding of `call_plugin`'s dispatch loop (source lines 269-285)
over the list of implementations returned by the external
`PluginManager.get_implementations`: the concatenated event traces of the
individual plugins.  The function is total: every exception raised by a
plugin method or by the success callback is caught inside the loop body,
so nothing propagates out of the loop. -/
def call_plugin (callback : Option (String → PluginInst → SVal → Except String Unit))
    (has_error_callback : Bool) : List PluginInst → List CallEvent
  | [] => []
  | plugin :: rest =>
      plugin_events callback has_error_callback plugin ++
        call_plugin callback has_error_callback rest

/-- Embedding of `FileInfo` (schema source lines 26-31); the field
payloads are opaque to `JobData.update`. -/
structure FileInfo where
  name : Option String
  path : Option String
  size : Option Int
  origin : Option String
  date : Option Int
deriving DecidableEq, Repr

/-- Stand-in for a Python float payload in the schema records: the update
logic only moves such values around, never computes with them. -/
structure PyFloat where
  payload : Rat
deriving DecidableEq, Repr

/-- Embedding of `FilamentInfo` (schema source lines 34-36). -/
structure FilamentInfo where
  length : Option PyFloat
  volume : Option PyFloat
deriving DecidableEq, Repr

/-- Embedding of `JobData` (schema source lines 39-44): every field
defaults to `None`. -/
structure JobData where
  file : Option FileInfo := none
  estimatedPrintTime : Option PyFloat := none
  lastPrintTime : Option PyFloat := none
  filament : Option FilamentInfo := none
  user : Option String := none
deriving DecidableEq, Repr

/-- The argument handed to `JobData.update`: either a `JobData` instance
or any other Python object (whose content is irrelevant, since the method
returns immediately for it). -/
inductive UpdateArg where
  | jobData : JobData → UpdateArg
  | notJobData : UpdateArg

/-- Embedding of `JobData.update` (schema source lines 46-59): return
unchanged unless the argument is a `JobData`; then overwrite each field
from the argument exactly when the argument's field is not `None`. -/
def JobData.update (self : JobData) : UpdateArg → JobData
  | UpdateArg.notJobData => self
  | UpdateArg.jobData other =>
      { file := match other.file with
          | some v => some v
          | none => self.file
        estimatedPrintTime := match other.estimatedPrintTime with
          | some v => some v
          | none => self.estimatedPrintTime
        lastPrintTime := match other.lastPrintTime with
          | some v => some v
          | none => self.lastPrintTime
        filament := match other.filament with
          | some v => some v
          | none => self.filament
        user := match other.user with
          | some v => some v
          | none => self.user }

/-- Concrete plugin whose method succeeds, for evaluating the dispatcher. -/
def pA : PluginInst :=
  { identifier := some "a", hasMethod := true, run := Except.ok (SVal.int 1) }

/-- Concrete plugin whose method raises, for evaluating the dispatcher. -/
def pB : PluginInst :=
  { identifier := some "b", hasMethod := true, run := Except.error "boom" }

/-- Concrete plugin whose method succeeds, for evaluating the dispatcher. -/
def pC : PluginInst :=
  { identifier := some "c", hasMethod := true, run := Except.ok (SVal.int 3) }

/-- Concrete plugin lacking the `_identifier` attribute. -/
def pNoId : PluginInst :=
  { identifier := none, hasMethod := true, run := Except.ok SVal.null }

/-- Concrete plugin lacking the dispatched method. -/
def pNoMethod : PluginInst :=
  { identifier := some "m", hasMethod := false, run := Except.ok SVal.null }

/-- Concrete success callback that raises for plugin `"a"` and returns
normally for every other plugin. -/
def cbBoom : String → PluginInst → SVal → Except String Unit :=
  fun name _ _ => if name = "a" then Except.error "callback boom" else Except.ok ()

/-- Concrete facade for plugin key `"foo"` with no declared defaults and
no preprocessors. -/
def psFoo : PluginSettings :=
  PluginSettings.init "foo" none none none

/-- Concrete facade for plugin key `"bar"` with a declared defaults dict. -/
def psBar : PluginSettings :=
  PluginSettings.init "bar" (some [("x", SVal.int 1)]) none none

/-- Dispatch over an appended list is the concatenation of the two
dispatch traces (the loop threads no state between plugins). -/
theorem call_plugin_append (cb : Option (String → PluginInst → SVal → Except String Unit))
    (ecb : Bool) (l1 l2 : List PluginInst) :
    call_plugin cb ecb (l1 ++ l2) = call_plugin cb ecb l1 ++ call_plugin cb ecb l2 := by
  induction l1 with
  | nil => rfl
  | cons p rest ih => simp [call_plugin, ih]

/-- A qualifying plugin anywhere in the list has its method invoked: the
trace contains its `invoked` event. -/
theorem invoked_mem_call_plugin (cb : Option (String → PluginInst → SVal → Except String Unit))
    (ecb : Bool) (l : List PluginInst) (p : PluginInst) (name : String)
    (hp : p ∈ l) (hid : p.identifier = some name) (hm : p.hasMethod = true) :
    CallEvent.invoked name ∈ call_plugin cb ecb l := by
  induction l with
  | nil => cases hp
  | cons q rest ih =>
    rcases List.mem_cons.mp hp with h | h
    · subst h
      simp [call_plugin, plugin_events, hid, hm]
    · simp only [call_plugin, List.mem_append]
      exact Or.inr (ih h)

/-- C1: the registry factory `plugin_manager` enforces the singleton init
contract: with the singleton already constructed, `init=True` always
raises the "already initialized" `ValueError`; before the first
successful `init=True` call, `init=False` always raises the "not
initialized yet" `ValueError`; a first `init=True` call constructs the
instance and returns it; and every later `init=False` call returns that
instance unchanged, leaving the singleton cell unchanged. -/
theorem plugin_manager_singleton_contract :
    (∀ (args : PMArgs) (inst : PluginManagerInst),
      plugin_manager true args (some inst) =
        Except.error "Plugin Manager already initialized") ∧
    (∀ (args : PMArgs),
      plugin_manager false args none =
        Except.error "Plugin Manager not initialized yet") ∧
    (∀ (args : PMArgs),
      plugin_manager true args none =
        Except.ok (mkPluginManager args, some (mkPluginManager args))) ∧
    (∀ (args : PMArgs) (inst : PluginManagerInst),
      plugin_manager false args (some inst) = Except.ok (inst, some inst)) ∧
    (∀ (args args2 : PMArgs) (inst : PluginManagerInst) (cell : Option PluginManagerInst),
      plugin_manager true args none = Except.ok (inst, cell) →
      plugin_manager false args2 cell = Except.ok (inst, cell)) := by
  refine ⟨fun args inst => rfl, fun args => rfl, fun args => rfl,
    fun args inst => rfl, ?_⟩
  intro args args2 inst cell h
  have h2 := Except.ok.inj h
  rw [Prod.ext_iff] at h2
  obtain ⟨h3, h4⟩ := h2
  subst h3
  subst h4
  rfl

/-- Witness for C1: after the initial `init=True` call constructs the
instance from default arguments, a later `init=False` call returns it
unchanged. -/
theorem plugin_manager_singleton_contract_witness :
    plugin_manager false {} (some (mkPluginManager {})) =
      Except.ok (mkPluginManager {}, some (mkPluginManager {})) :=
  plugin_manager_singleton_contract.2.2.2.2 {} {} (mkPluginManager {})
    (some (mkPluginManager {})) rfl

/-- C10: `JobData.update` is a selective, frame-preserving merge: a
non-`JobData` argument leaves the record entirely unchanged, and for a
`JobData` argument each of the five fields is replaced by the argument's
field exactly when that field is not `None`, staying unchanged
otherwise. -/
theorem jobdata_update_selective_merge :
    (∀ (j : JobData), JobData.update j UpdateArg.notJobData = j) ∧
    (∀ (j o : JobData),
      (JobData.update j (UpdateArg.jobData o)).file =
        (if o.file.isSome then o.file else j.file) ∧
      (JobData.update j (UpdateArg.jobData o)).estimatedPrintTime =
        (if o.estimatedPrintTime.isSome then o.estimatedPrintTime else j.estimatedPrintTime) ∧
      (JobData.update j (UpdateArg.jobData o)).lastPrintTime =
        (if o.lastPrintTime.isSome then o.lastPrintTime else j.lastPrintTime) ∧
      (JobData.update j (UpdateArg.jobData o)).filament =
        (if o.filament.isSome then o.filament else j.filament) ∧
      (JobData.update j (UpdateArg.jobData o)).user =
        (if o.user.isSome then o.user else j.user)) := by
  refine ⟨fun j => rfl, fun j o => ?_⟩
  obtain ⟨file, est, last, fil, user⟩ := o
  cases file <;> cases est <;> cases last <;> cases fil <;> cases user <;>
    exact ⟨rfl, rfl, rfl, rfl, rfl⟩

/-- C2: `call_plugin` provides fault isolation.  For every ordered list
of qualifying instances, when one instance's method raises, the
dispatcher emits the `error_callback` event for that instance (an
`error_callback` being provided) and the trace decomposes as the trace of
the earlier instances, the failing instance's invocation and error
events, and the full trace of the later instances; in particular every
later qualifying instance still has its method invoked. -/
theorem call_plugin_fault_isolation :
    ∀ (cb : Option (String → PluginInst → SVal → Except String Unit))
      (pre post : List PluginInst) (bad : PluginInst) (name exc : String),
      bad.identifier = some name → bad.hasMethod = true →
      bad.run = Except.error exc →
      call_plugin cb true (pre ++ bad :: post) =
        call_plugin cb true pre ++
          ([CallEvent.invoked name, CallEvent.error_cb name exc] ++
            call_plugin cb true post) ∧
      (∀ (p : PluginInst) (pname : String), p ∈ post → p.identifier = some pname →
        p.hasMethod = true →
        CallEvent.invoked pname ∈ call_plugin cb true (pre ++ bad :: post)) := by
  intro cb pre post bad name exc hid hm hrun
  constructor
  · rw [call_plugin_append]
    simp [call_plugin, plugin_events, hid, hm, hrun]
  · intro p pname hp hpid hpm
    exact invoked_mem_call_plugin cb true (pre ++ bad :: post) p pname
      (List.mem_append.mpr (Or.inr (List.mem_cons.mpr (Or.inr hp)))) hpid hpm

/-- Witness for C2, the three-plugin scenario of the spec: with plugins
`a`, `b`, `c` where only `b`'s method raises, the dispatcher invokes `a`
and `c`, the trace decomposes around `b`'s failure, and the error
callback fires exactly once, for `b`. -/
theorem call_plugin_fault_isolation_witness :
    call_plugin none true [pA, pB, pC] =
      call_plugin none true [pA] ++
        ([CallEvent.invoked "b", CallEvent.error_cb "b" "boom"] ++
          call_plugin none true [pC]) ∧
    call_plugin none true [pA, pB, pC] =
      [CallEvent.invoked "a", CallEvent.invoked "b",
       CallEvent.error_cb "b" "boom", CallEvent.invoked "c"] ∧
    List.countP (fun e => match e with
      | CallEvent.error_cb _ _ => true
      | _ => false) (call_plugin none true [pA, pB, pC]) = 1 ∧
    CallEvent.invoked "a" ∈ call_plugin none true [pA, pB, pC] ∧
    CallEvent.invoked "c" ∈ call_plugin none true [pA, pB, pC] :=
  ⟨(call_plugin_fault_isolation none [pA] [pC] pB "b" "boom" rfl rfl rfl).1,
   by decide, by decide, by decide, by decide⟩

/-- C3 counterexample: the success callback is invoked inside the same
`try` block as the plugin method (source lines 275-285), so an exception
it raises is caught, routed to `error_callback`, and dispatch continues.
At the concrete input where the callback raises for plugin `a`, the trace
shows the `error_callback` event for `a` (the claim says the exception is
not routed there) and the invocation of the later plugin `c` (the claim
says dispatch aborts). -/
theorem call_plugin_callback_exception_counterexample :
    call_plugin (some cbBoom) true [pA, pC] =
      [CallEvent.invoked "a", CallEvent.error_cb "a" "callback boom",
       CallEvent.invoked "c", CallEvent.callback_ok "c"] ∧
    CallEvent.invoked "c" ∈ call_plugin (some cbBoom) true [pA, pC] ∧
    CallEvent.error_cb "a" "callback boom" ∈ call_plugin (some cbBoom) true [pA, pC] :=
  ⟨by decide, by decide, by decide⟩

/-- C3 as amended: an exception raised by the success callback is caught
by `call_plugin` itself: it is routed to `error_callback(identifier,
instance, exception)` when an error callback is provided, it does not
propagate to the caller, and dispatch continues with the remaining
qualifying instances. -/
theorem call_plugin_callback_exception_caught :
    ∀ (cb : String → PluginInst → SVal → Except String Unit) (ecb : Bool)
      (pre post : List PluginInst) (p : PluginInst) (name exc : String) (result : SVal),
      p.identifier = some name → p.hasMethod = true → p.run = Except.ok result →
      cb name p result = Except.error exc →
      call_plugin (some cb) ecb (pre ++ p :: post) =
        call_plugin (some cb) ecb pre ++
          ((CallEvent.invoked name ::
            (if ecb then [CallEvent.error_cb name exc] else [])) ++
            call_plugin (some cb) ecb post) := by
  intro cb ecb pre post p name exc result hid hm hrun hcb
  rw [call_plugin_append]
  cases ecb <;> simp [call_plugin, plugin_events, hid, hm, hrun, hcb]

/-- Witness for the amended C3: plugin `a` succeeds, the callback raises
for it, the error callback receives the callback's exception and the
later plugin `c` is still dispatched. -/
theorem call_plugin_callback_exception_caught_witness :
    call_plugin (some cbBoom) true [pA, pC] =
      call_plugin (some cbBoom) true [] ++
        ((CallEvent.invoked "a" ::
          (if true then [CallEvent.error_cb "a" "callback boom"] else [])) ++
          call_plugin (some cbBoom) true [pC]) :=
  call_plugin_callback_exception_caught cbBoom true [] [pC] pA "a" "callback boom"
    (SVal.int 1) rfl rfl rfl rfl

/-- C7: an instance lacking the `_identifier` attribute or not exposing
the dispatched method contributes no events at all (no invocation, no
callback, no error callback, nothing raised) and dispatch proceeds with
the remaining instances as if it were absent. -/
theorem call_plugin_skips_nonqualifying :
    ∀ (cb : Option (String → PluginInst → SVal → Except String Unit)) (ecb : Bool)
      (pre post : List PluginInst) (p : PluginInst),
      p.identifier = none ∨ p.hasMethod = false →
      plugin_events cb ecb p = [] ∧
      call_plugin cb ecb (pre ++ p :: post) =
        call_plugin cb ecb pre ++ call_plugin cb ecb post := by
  intro cb ecb pre post p hp
  have hev : plugin_events cb ecb p = [] := by
    rcases hp with h | h
    · simp [plugin_events, h]
    · cases hq : p.identifier with
      | none => simp [plugin_events, hq]
      | some name => simp [plugin_events, hq, h]
  refine ⟨hev, ?_⟩
  rw [call_plugin_append]
  simp [call_plugin, hev]

/-- Witness for C7: a plugin without `_identifier` and a plugin without
the method are both skipped between `a` and `c`, leaving the dispatch
trace of the remaining plugins unchanged. -/
theorem call_plugin_skips_nonqualifying_witness :
    (plugin_events none true pNoId = [] ∧
      call_plugin none true [pA, pNoId, pC] =
        call_plugin none true [pA] ++ call_plugin none true [pC]) ∧
    (plugin_events none true pNoMethod = [] ∧
      call_plugin none true [pA, pNoMethod, pC] =
        call_plugin none true [pA] ++ call_plugin none true [pC]) :=
  ⟨call_plugin_skips_nonqualifying none true [pA] [pC] pNoId (Or.inl rfl),
   call_plugin_skips_nonqualifying none true [pA] [pC] pNoMethod (Or.inr rfl)⟩

/-- C4: every scoped `PluginSettings` method rewrites the caller-supplied
path `P` to `["plugins", plugin_key] ++ P` in the call it delegates to
the Settings Store, and consequently a scoped `set(P, v)` followed by a
raw store read of `["plugins", k] ++ P` yields `v`. -/
theorem plugin_settings_path_scoping :
    (∀ (ps : PluginSettings) (path : List String) (kw : Kwargs),
      (ps.has path kw).path = ["plugins", ps.plugin_key] ++ path ∧
      (ps.get path kw).path = ["plugins", ps.plugin_key] ++ path ∧
      (ps.get_int path kw).path = ["plugins", ps.plugin_key] ++ path ∧
      (ps.get_float path kw).path = ["plugins", ps.plugin_key] ++ path ∧
      (ps.get_boolean path kw).path = ["plugins", ps.plugin_key] ++ path ∧
      (ps.remove path kw).path = ["plugins", ps.plugin_key] ++ path) ∧
    (∀ (ps : PluginSettings) (path : List String) (v : SVal) (kw : Kwargs),
      (ps.set path v kw).path = ["plugins", ps.plugin_key] ++ path ∧
      (ps.set_int path v kw).path = ["plugins", ps.plugin_key] ++ path ∧
      (ps.set_float path v kw).path = ["plugins", ps.plugin_key] ++ path ∧
      (ps.set_boolean path v kw).path = ["plugins", ps.plugin_key] ++ path) ∧
    (∀ (k : String) (d : Option (List (String × SVal))) (P : List String) (v : SVal)
      (kw : Kwargs) (st : Settings),
      ((st.apply ((PluginSettings.init k d none none).set P v kw)).1).stored
        (["plugins", k] ++ P) = some v) := by
  refine ⟨fun ps path kw => ⟨rfl, rfl, rfl, rfl, rfl, rfl⟩,
    fun ps path v kw => ⟨rfl, rfl, rfl, rfl⟩, ?_⟩
  intro k d P v kw st
  simp [PluginSettings.set, PluginSettings.init, PluginSettings.prefix_path,
    Settings.apply, Settings.write, Settings.stored, storeLookup]

/-- C5: every `global_*` method of `PluginSettings` delegates to the
Settings Store with the caller's path unmodified and the caller's keyword
arguments exactly as supplied — no `["plugins", plugin_key]` prefix and
no injection of the plugin's wrapped defaults or preprocessors. -/
theorem plugin_settings_global_passthrough :
    ∀ (ps : PluginSettings) (path : List String) (v : SVal) (kw : Kwargs),
      ps.global_has path kw = StoreCall.has path kw ∧
      ps.global_get path kw = StoreCall.get path kw ∧
      ps.global_get_int path kw = StoreCall.getInt path kw ∧
      ps.global_get_float path kw = StoreCall.getFloat path kw ∧
      ps.global_get_boolean path kw = StoreCall.getBoolean path kw ∧
      ps.global_remove path kw = StoreCall.remove path kw ∧
      ps.global_set path v kw = StoreCall.set path v kw ∧
      ps.global_set_int path v kw = StoreCall.setInt path v kw ∧
      ps.global_set_float path v kw = StoreCall.setFloat path v kw ∧
      ps.global_set_boolean path v kw = StoreCall.setBoolean path v kw ∧
      (ps.global_get path kw).kwargs = kw ∧
      (ps.global_set path v kw).kwargs = kw :=
  fun ps path v kw =>
    ⟨rfl, rfl, rfl, rfl, rfl, rfl, rfl, rfl, rfl, rfl, rfl, rfl⟩

/-- C6 evaluation: `add_overlay` does not register the overlay wrapped
under the plugin namespace.  Because `_wrap_overlay` iterates its
argument (`list(args)` on a dict yields its keys) and wraps element 0,
the store receives a list whose first element wraps the overlay's first
key, and an empty overlay dict raises `IndexError`; `remove_overlay`
does delegate the key unmodified. -/
theorem add_overlay_wraps_first_key_not_overlay :
    PluginSettings.add_overlay psFoo (SVal.dict [("a", SVal.int 1)]) {} =
      some (StoreCall.add_overlay
        (SVal.list [SVal.dict [("plugins", SVal.dict [("foo", SVal.str "a")])]]) {}) ∧
    PluginSettings.add_overlay psFoo (SVal.dict [("a", SVal.int 1)]) {} ≠
      some (StoreCall.add_overlay
        (SVal.dict [("plugins", SVal.dict [("foo", SVal.dict [("a", SVal.int 1)])])]) {}) ∧
    PluginSettings.add_overlay psFoo (SVal.dict []) {} = none ∧
    (∀ (ps : PluginSettings) (key : String),
      ps.remove_overlay key = StoreCall.remove_overlay key) := by
  refine ⟨rfl, ?_, rfl, fun ps key => rfl⟩
  intro h
  rw [show PluginSettings.add_overlay psFoo (SVal.dict [("a", SVal.int 1)]) {} =
      some (StoreCall.add_overlay
        (SVal.list [SVal.dict [("plugins", SVal.dict [("foo", SVal.str "a")])]]) {})
    from rfl] at h
  simp at h

/-- Keyword-argument injection never touches the `min` bound. -/
theorem add_setter_kwargs_min (ps : PluginSettings) (kw : Kwargs) :
    (ps.add_setter_kwargs kw).min = kw.min := by
  simp only [PluginSettings.add_setter_kwargs]
  by_cases h1 : (kw.defaults.isNone && ps.defaults.isSome) = true <;>
    by_cases h2 : kw.preprocessors.isNone = true <;>
      simp [h1, h2]

/-- Keyword-argument injection never touches the `max` bound. -/
theorem add_setter_kwargs_max (ps : PluginSettings) (kw : Kwargs) :
    (ps.add_setter_kwargs kw).max = kw.max := by
  simp only [PluginSettings.add_setter_kwargs]
  by_cases h1 : (kw.defaults.isNone && ps.defaults.isSome) = true <;>
    by_cases h2 : kw.preprocessors.isNone = true <;>
      simp [h1, h2]

/-- A `setInt` store call with a convertible value stores the clamped
integer at its path. -/
theorem apply_setInt_stored (st : Settings) (path : List String) (v : SVal) (kw : Kwargs)
    (i : Int) (hv : pyToInt v = some i) :
    ((st.apply (StoreCall.setInt path v kw)).1).stored path =
      some (SVal.int (clampInt (kw.min.bind pyToInt) (kw.max.bind pyToInt) i)) := by
  simp [Settings.apply, hv, Settings.write, Settings.stored, storeLookup]

/-- A `setFloat` store call with a convertible value stores the clamped
float at its path. -/
theorem apply_setFloat_stored (st : Settings) (path : List String) (v : SVal) (kw : Kwargs)
    (q : Rat) (hv : pyToRat v = some q) :
    ((st.apply (StoreCall.setFloat path v kw)).1).stored path =
      some (SVal.float (clampRat (kw.min.bind pyToRat) (kw.max.bind pyToRat) q)) := by
  simp [Settings.apply, hv, Settings.write, Settings.stored, storeLookup]

/-- C8: the numeric setters clamp rather than reject: with `min`/`max`
bounds supplied (and sensible, `min ≤ max`), a value below `min` results
in `min` stored at the scoped path and a value above `max` results in
`max`; the same holds with only one bound supplied, and for `set_float`
over the modelled float ordering. -/
theorem plugin_settings_numeric_set_clamping :
    ∀ (ps : PluginSettings) (st : Settings) (P : List String) (i lo hi : Int)
      (q qlo qhi : Rat),
      (lo ≤ hi → i < lo →
        ((st.apply (ps.set_int P (SVal.int i)
            { min := some (SVal.int lo), max := some (SVal.int hi) })).1).stored
          (["plugins", ps.plugin_key] ++ P) = some (SVal.int lo)) ∧
      (lo ≤ hi → hi < i →
        ((st.apply (ps.set_int P (SVal.int i)
            { min := some (SVal.int lo), max := some (SVal.int hi) })).1).stored
          (["plugins", ps.plugin_key] ++ P) = some (SVal.int hi)) ∧
      (i < lo →
        ((st.apply (ps.set_int P (SVal.int i)
            { min := some (SVal.int lo) })).1).stored
          (["plugins", ps.plugin_key] ++ P) = some (SVal.int lo)) ∧
      (hi < i →
        ((st.apply (ps.set_int P (SVal.int i)
            { max := some (SVal.int hi) })).1).stored
          (["plugins", ps.plugin_key] ++ P) = some (SVal.int hi)) ∧
      (qlo ≤ qhi → q < qlo →
        ((st.apply (ps.set_float P (SVal.float q)
            { min := some (SVal.float qlo), max := some (SVal.float qhi) })).1).stored
          (["plugins", ps.plugin_key] ++ P) = some (SVal.float qlo)) ∧
      (qlo ≤ qhi → qhi < q →
        ((st.apply (ps.set_float P (SVal.float q)
            { min := some (SVal.float qlo), max := some (SVal.float qhi) })).1).stored
          (["plugins", ps.plugin_key] ++ P) = some (SVal.float qhi)) := by
  intro ps st P i lo hi q qlo qhi
  refine ⟨fun hle hlt => ?_, fun hle hgt => ?_, fun hlt => ?_, fun hgt => ?_,
    fun hle hlt => ?_, fun hle hgt => ?_⟩
  · have h := apply_setInt_stored st (ps.prefix_path P) (SVal.int i)
      (ps.add_setter_kwargs { min := some (SVal.int lo), max := some (SVal.int hi) }) i rfl
    rw [add_setter_kwargs_min, add_setter_kwargs_max] at h
    simp [pyToInt, clampInt, hlt, not_lt.mpr hle] at h
    exact h
  · have h := apply_setInt_stored st (ps.prefix_path P) (SVal.int i)
      (ps.add_setter_kwargs { min := some (SVal.int lo), max := some (SVal.int hi) }) i rfl
    rw [add_setter_kwargs_min, add_setter_kwargs_max] at h
    simp [pyToInt, clampInt, hgt, not_lt_of_gt (lt_of_le_of_lt hle hgt)] at h
    exact h
  · have h := apply_setInt_stored st (ps.prefix_path P) (SVal.int i)
      (ps.add_setter_kwargs { min := some (SVal.int lo) }) i rfl
    rw [add_setter_kwargs_min, add_setter_kwargs_max] at h
    simp [pyToInt, clampInt, hlt] at h
    exact h
  · have h := apply_setInt_stored st (ps.prefix_path P) (SVal.int i)
      (ps.add_setter_kwargs { max := some (SVal.int hi) }) i rfl
    rw [add_setter_kwargs_min, add_setter_kwargs_max] at h
    simp [pyToInt, clampInt, hgt] at h
    exact h
  · have h := apply_setFloat_stored st (ps.prefix_path P) (SVal.float q)
      (ps.add_setter_kwargs { min := some (SVal.float qlo), max := some (SVal.float qhi) }) q rfl
    rw [add_setter_kwargs_min, add_setter_kwargs_max] at h
    simp [pyToRat, clampRat, hlt, not_lt.mpr hle] at h
    exact h
  · have h := apply_setFloat_stored st (ps.prefix_path P) (SVal.float q)
      (ps.add_setter_kwargs { min := some (SVal.float qlo), max := some (SVal.float qhi) }) q rfl
    rw [add_setter_kwargs_min, add_setter_kwargs_max] at h
    simp [pyToRat, clampRat, hgt, not_lt_of_gt (lt_of_le_of_lt hle hgt)] at h
    exact h

/-- Witness for C8, the spec's clamping example: on the `"foo"` facade,
`set_int(["n"], 50, min=0, max=10)` stores `10` at
`["plugins", "foo", "n"]`. -/
theorem plugin_settings_numeric_set_clamping_witness :
    ((Settings.apply {} (PluginSettings.set_int psFoo ["n"] (SVal.int 50)
        { min := some (SVal.int 0), max := some (SVal.int 10) })).1).stored
      ["plugins", "foo", "n"] = some (SVal.int 10) :=
  (plugin_settings_numeric_set_clamping psFoo {} ["n"] 50 0 10 0 0 0).2.1
    (by decide) (by decide)

/-- C9: construction with a non-`None` defaults dict `d` produces the
effective defaults `{"plugins": {k: d'}}` with `d'` being `d` with
`"_config_version"` additionally mapped to `None`; the wrapped defaults
and wrapped preprocessor maps are injected into the keyword arguments of
every scoped getter and setter call exactly when the caller did not
supply their own `defaults` or `preprocessors` keyword, so
caller-supplied values take precedence. -/
theorem plugin_settings_defaults_wrapping_and_injection :
    (∀ (k : String) (d : List (String × SVal)) (gp sp : Option SVal),
      (PluginSettings.init k (some d) gp sp).defaults =
        some (SVal.dict [("plugins",
          SVal.dict [(k, SVal.dict (dictSet "_config_version" SVal.null d))])])) ∧
    (∀ (k : String) (gp sp : Option SVal),
      (PluginSettings.init k none gp sp).defaults = none) ∧
    (∀ (ps : PluginSettings) (kw : Kwargs),
      kw.defaults.isSome →
        (ps.add_getter_kwargs kw).defaults = kw.defaults ∧
        (ps.add_setter_kwargs kw).defaults = kw.defaults) ∧
    (∀ (ps : PluginSettings) (kw : Kwargs),
      kw.preprocessors.isSome →
        (ps.add_getter_kwargs kw).preprocessors = kw.preprocessors ∧
        (ps.add_setter_kwargs kw).preprocessors = kw.preprocessors) ∧
    (∀ (ps : PluginSettings) (kw : Kwargs),
      kw.defaults = none → ps.defaults.isSome →
        (ps.add_getter_kwargs kw).defaults = ps.defaults ∧
        (ps.add_setter_kwargs kw).defaults = ps.defaults) ∧
    (∀ (ps : PluginSettings) (kw : Kwargs),
      kw.preprocessors = none →
        (ps.add_getter_kwargs kw).preprocessors = some ps.get_preprocessors ∧
        (ps.add_setter_kwargs kw).preprocessors = some ps.set_preprocessors) ∧
    (∀ (ps : PluginSettings) (path : List String) (kw : Kwargs),
      (ps.has path kw).kwargs = ps.add_getter_kwargs kw ∧
      (ps.get path kw).kwargs = ps.add_getter_kwargs kw ∧
      (ps.get_int path kw).kwargs = ps.add_getter_kwargs kw ∧
      (ps.get_float path kw).kwargs = ps.add_getter_kwargs kw ∧
      (ps.get_boolean path kw).kwargs = ps.add_getter_kwargs kw) ∧
    (∀ (ps : PluginSettings) (path : List String) (v : SVal) (kw : Kwargs),
      (ps.set path v kw).kwargs = ps.add_setter_kwargs kw ∧
      (ps.set_int path v kw).kwargs = ps.add_setter_kwargs kw ∧
      (ps.set_float path v kw).kwargs = ps.add_setter_kwargs kw ∧
      (ps.set_boolean path v kw).kwargs = ps.add_setter_kwargs kw) := by
  refine ⟨fun k d gp sp => rfl, fun k gp sp => rfl, ?_, ?_, ?_, ?_,
    fun ps path kw => ⟨rfl, rfl, rfl, rfl, rfl⟩,
    fun ps path v kw => ⟨rfl, rfl, rfl, rfl⟩⟩
  · intro ps kw h
    obtain ⟨dv, hd⟩ := Option.isSome_iff_exists.mp h
    constructor <;>
      · simp only [PluginSettings.add_getter_kwargs, PluginSettings.add_setter_kwargs,
          hd, Option.isNone_some, Bool.false_and, Bool.false_eq_true, if_false]
        split <;> simp [hd]
  · intro ps kw h
    obtain ⟨pv, hp⟩ := Option.isSome_iff_exists.mp h
    constructor <;>
      · simp only [PluginSettings.add_getter_kwargs, PluginSettings.add_setter_kwargs]
        split <;> simp [hp]
  · intro ps kw hd hps
    obtain ⟨pv, hp⟩ := Option.isSome_iff_exists.mp hps
    constructor <;>
      · simp only [PluginSettings.add_getter_kwargs, PluginSettings.add_setter_kwargs,
          hd, hp, Option.isNone_none, Bool.true_and, Option.isSome_some, if_true]
        split <;> simp [hp]
  · intro ps kw hp
    constructor <;>
      · simp only [PluginSettings.add_getter_kwargs, PluginSettings.add_setter_kwargs]
        split <;> simp [hp]

/-- Witness for C9: on the `"bar"` facade carrying declared defaults,
empty caller kwargs receive the wrapped defaults and wrapped
preprocessors, while caller-supplied `defaults` and `preprocessors`
keywords pass through untouched. -/
theorem plugin_settings_defaults_wrapping_and_injection_witness :
    ((psBar.add_getter_kwargs {}).defaults = psBar.defaults ∧
      (psBar.add_setter_kwargs {}).defaults = psBar.defaults) ∧
    ((psBar.add_getter_kwargs { defaults := some (SVal.int 7) }).defaults =
        some (SVal.int 7) ∧
      (psBar.add_setter_kwargs { defaults := some (SVal.int 7) }).defaults =
        some (SVal.int 7)) ∧
    ((psBar.add_getter_kwargs { preprocessors := some (SVal.str "mine") }).preprocessors =
        some (SVal.str "mine") ∧
      (psBar.add_setter_kwargs { preprocessors := some (SVal.str "mine") }).preprocessors =
        some (SVal.str "mine")) ∧
    ((psBar.add_getter_kwargs {}).preprocessors = some psBar.get_preprocessors ∧
      (psBar.add_setter_kwargs {}).preprocessors = some psBar.set_preprocessors) :=
  ⟨plugin_settings_defaults_wrapping_and_injection.2.2.2.2.1 psBar {} rfl rfl,
   plugin_settings_defaults_wrapping_and_injection.2.2.1 psBar
     { defaults := some (SVal.int 7) } rfl,
   plugin_settings_defaults_wrapping_and_injection.2.2.2.1 psBar
     { preprocessors := some (SVal.str "mine") } rfl,
   plugin_settings_defaults_wrapping_and_injection.2.2.2.2.2.1 psBar {} rfl⟩

end OctoPrint
